import Mathlib

/-!
Shallow embedding of `src/src/bitarchivecreator.cpp` (bit7z's archive-creation
configuration and commit pipeline) and proofs about its claimed properties.

Pure validators (`isValidCompressionMethod`, `isValidDictionarySize`,
`methodName`) are translated directly.  The mutable `BitArchiveCreator`
object becomes a record; each setter becomes a function from the record to a
pair of the record after the call and an optional thrown `BitException`
(the C++ setters throw before mutating, and the pair shape lets the
"unchanged on throw" property be stated).  `setArchiveProperties` becomes a
function building the ordered (name, value) property list.  `compressOut`
and `initOutFileStream` become functions over explicit engine result codes
and an explicit filesystem outcome.
-/

/-- Format identifiers of the output-capable archive formats (`BitFormat`
constants compared by `BitInFormat::operator==`, which compares format
values). -/
inductive FormatId where
  | SevenZip
  | Zip
  | Tar
  | Wim
  | Xz
  | BZip2
  | GZip
deriving DecidableEq

/-- Compression methods of `BitCompressionMethod` (the seven members
enumerated by the `methodName` switch in the source). -/
inductive BitCompressionMethod where
  | Copy
  | Ppmd
  | Lzma
  | Lzma2
  | BZip2
  | Deflate
  | Deflate64
deriving DecidableEq

/-- Format capability flags queried through `hasFeature` in the source. -/
inductive FormatFeature where
  | MULTIPLE_FILES
  | MULTIPLE_METHODS
  | COMPRESSION_LEVEL
  | SOLID_ARCHIVE
  | HEADER_ENCRYPTION
deriving DecidableEq

/-- An output archive format: its identity, its capability flags and its
default compression method (the interface of `BitInOutFormat` used by
`bitarchivecreator.cpp`). -/
structure BitInOutFormat where
  id : FormatId
  multipleFiles : Bool
  multipleMethods : Bool
  compressionLevelFeature : Bool
  solidArchive : Bool
  headerEncryption : Bool
  defaultMethod : BitCompressionMethod
deriving DecidableEq

/-- Capability query, as `mFormat.hasFeature(...)` in the source. -/
def BitInOutFormat.hasFeature (f : BitInOutFormat) : FormatFeature → Bool
  | .MULTIPLE_FILES => f.multipleFiles
  | .MULTIPLE_METHODS => f.multipleMethods
  | .COMPRESSION_LEVEL => f.compressionLevelFeature
  | .SOLID_ARCHIVE => f.solidArchive
  | .HEADER_ENCRYPTION => f.headerEncryption

/-- Translation of `isValidCompressionMethod` (bitarchivecreator.cpp lines
40-59): a switch on the method comparing the format against the `BitFormat`
constants; the default case returns true. -/
def isValidCompressionMethod (format : BitInOutFormat) (method : BitCompressionMethod) : Bool :=
  match method with
  | .Copy =>
      format.id = .SevenZip ∨ format.id = .Zip ∨ format.id = .Tar ∨ format.id = .Wim
  | .Ppmd | .Lzma =>
      format.id = .SevenZip ∨ format.id = .Zip
  | .Lzma2 =>
      format.id = .SevenZip ∨ format.id = .Xz
  | .BZip2 =>
      format.id = .SevenZip ∨ format.id = .BZip2 ∨ format.id = .Zip
  | .Deflate =>
      format.id = .GZip ∨ format.id = .Zip
  | .Deflate64 =>
      format.id = .Zip

/-- Translation of `isValidDictionarySize` (bitarchivecreator.cpp lines
61-77).  The C++ argument is `uint32_t`; the switch never wraps, so the
function is stated on `Nat` (it agrees with the C++ on the whole `uint32_t`
range). -/
def isValidDictionarySize (method : BitCompressionMethod) (dictionary_size : Nat) : Bool :=
  match method with
  | .Lzma | .Lzma2 =>
      dictionary_size ≤ 1536 * (1 <<< 20)
  | .Ppmd =>
      dictionary_size ≤ 1 <<< 30
  | .BZip2 =>
      dictionary_size ≤ 900 * (1 <<< 10)
  | .Deflate64 =>
      dictionary_size = 1 <<< 16
  | .Deflate =>
      dictionary_size = 1 <<< 15
  | .Copy =>
      true

/-- Translation of `methodName` (bitarchivecreator.cpp lines 79-98). -/
def methodName (method : BitCompressionMethod) : String :=
  match method with
  | .Copy => "Copy"
  | .Ppmd => "PPMd"
  | .Lzma => "LZMA"
  | .Lzma2 => "LZMA2"
  | .BZip2 => "BZip2"
  | .Deflate => "Deflate"
  | .Deflate64 => "Deflate64"

/-- Specification-side method-validity table, written from the spec's §6
table (container-A = SevenZip, container-B = Zip, container-C = Tar,
container-D = Wim, container-E = Xz, container-F = BZip2,
container-G = GZip); every method not listed is always valid. -/
def specMethodTableAllows (fid : FormatId) (method : BitCompressionMethod) : Bool :=
  match method with
  | .Copy => fid ∈ [FormatId.SevenZip, FormatId.Zip, FormatId.Tar, FormatId.Wim]
  | .Ppmd => fid ∈ [FormatId.SevenZip, FormatId.Zip]
  | .Lzma => fid ∈ [FormatId.SevenZip, FormatId.Zip]
  | .Lzma2 => fid ∈ [FormatId.SevenZip, FormatId.Xz]
  | .BZip2 => fid ∈ [FormatId.SevenZip, FormatId.BZip2, FormatId.Zip]
  | .Deflate => fid ∈ [FormatId.GZip, FormatId.Zip]
  | .Deflate64 => fid ∈ [FormatId.Zip]

/-- Specification-side dictionary-size bounds, written from the spec's §6
bounds table: LZMA/LZMA2 at most 1,610,612,736; PPMd at most 1,073,741,824;
BZip2 at most 921,600; Deflate64 exactly 65,536; Deflate exactly 32,768;
all else unconstrained. -/
def specDictionarySizeOk (method : BitCompressionMethod) (size : Nat) : Bool :=
  match method with
  | .Lzma | .Lzma2 => size ≤ 1610612736
  | .Ppmd => size ≤ 1073741824
  | .BZip2 => size ≤ 921600
  | .Deflate64 => size = 65536
  | .Deflate => size = 32768
  | .Copy => true

/-- Claim C1: for every (format, method) pair, `isValidCompressionMethod`
returns true exactly when the pair appears in the spec's method-validity
table; every method of `BitCompressionMethod` is listed in the table, so the
clause about unlisted methods is vacuous. -/
theorem isValidCompressionMethod_matches_table
    (format : BitInOutFormat) (method : BitCompressionMethod) :
    isValidCompressionMethod format method = specMethodTableAllows format.id method := by
  rcases format with ⟨fid, f1, f2, f3, f4, f5, dm⟩
  cases fid <;> cases method <;> rfl

/-- Claim C2: for every method and size in the `uint32_t` range,
`isValidDictionarySize` agrees with the spec's per-method bounds, and in
particular rejects 1,610,612,737 for LZMA2 (one byte over the 1536 MiB
bound). -/
theorem isValidDictionarySize_matches_bounds
    (method : BitCompressionMethod) (size : Nat) :
    isValidDictionarySize method size = specDictionarySizeOk method size ∧
      isValidDictionarySize .Lzma2 1610612737 = false := by
  refine ⟨?_, by decide⟩
  cases method <;> rfl

/-- An exception thrown by the translated code (`BitException` carries only
a message). -/
structure BitException where
  message : String
deriving DecidableEq

/-- The mutable state of a `BitArchiveCreator` object: the fields set by the
constructor (bitarchivecreator.cpp lines 100-109) plus the inherited
`mPassword`. -/
structure BitArchiveCreator where
  mFormat : BitInOutFormat
  mCompressionLevel : Nat
  mCompressionMethod : BitCompressionMethod
  mDictionarySize : Nat
  mCryptHeaders : Bool
  mSolidMode : Bool
  mUpdateMode : Bool
  mVolumeSize : Nat
  mPassword : String
deriving DecidableEq

/-- State produced by the constructor `BitArchiveCreator(lib, format)`:
level NORMAL (ordinal 5), method = the format's default method, dictionary
size 0, all flags false, volume size 0, empty password. -/
def initialCreator (format : BitInOutFormat) : BitArchiveCreator :=
  { mFormat := format
    mCompressionLevel := 5
    mCompressionMethod := format.defaultMethod
    mDictionarySize := 0
    mCryptHeaders := false
    mSolidMode := false
    mUpdateMode := false
    mVolumeSize := 0
    mPassword := "" }

/-- Translation of the two-argument `setPassword` (lines 154-157): stores
the password and sets `mCryptHeaders` to `(password.length() > 0) &&
crypt_headers`. -/
def BitArchiveCreator.setPassword (s : BitArchiveCreator)
    (password : String) (crypt_headers : Bool) : BitArchiveCreator :=
  { s with
    mPassword := password
    mCryptHeaders := decide (0 < password.length) && crypt_headers }

/-- Translation of the one-argument `setPassword` overload (lines 150-152),
which delegates passing the current `mCryptHeaders`. -/
def BitArchiveCreator.setPassword1 (s : BitArchiveCreator) (password : String) : BitArchiveCreator :=
  s.setPassword password s.mCryptHeaders

/-- Translation of `setCompressionLevel` (lines 159-162): stores the level
and resets the dictionary size to the default 0. -/
def BitArchiveCreator.setCompressionLevel (s : BitArchiveCreator)
    (compression_level : Nat) : BitArchiveCreator :=
  { s with
    mCompressionLevel := compression_level
    mDictionarySize := 0 }

/-- Translation of `setCompressionMethod` (lines 164-174).  The result pairs
the object state after the call with the exception thrown, if any; the C++
throws before any mutation. -/
def BitArchiveCreator.setCompressionMethod (s : BitArchiveCreator)
    (compression_method : BitCompressionMethod) :
    BitArchiveCreator × Option BitException :=
  if ¬ isValidCompressionMethod s.mFormat compression_method then
    (s, some ⟨"Invalid compression method for the chosen archive format"⟩)
  else if s.mFormat.hasFeature .MULTIPLE_METHODS then
    ({ s with mCompressionMethod := compression_method, mDictionarySize := 0 }, none)
  else
    (s, none)

/-- Translation of `setDictionarySize` (lines 176-186): validates against
the current method, then assigns only for methods that are neither Copy nor
the fixed-dictionary deflate family. -/
def BitArchiveCreator.setDictionarySize (s : BitArchiveCreator)
    (dictionary_size : Nat) : BitArchiveCreator × Option BitException :=
  if ¬ isValidDictionarySize s.mCompressionMethod dictionary_size then
    (s, some ⟨"Invalid dictionary size for the chosen compression method"⟩)
  else if s.mCompressionMethod ≠ .Copy ∧ s.mCompressionMethod ≠ .Deflate ∧
      s.mCompressionMethod ≠ .Deflate64 then
    ({ s with mDictionarySize := dictionary_size }, none)
  else
    (s, none)

/-- Translation of `setSolidMode` (lines 188-190). -/
def BitArchiveCreator.setSolidMode (s : BitArchiveCreator) (solid_mode : Bool) : BitArchiveCreator :=
  { s with mSolidMode := solid_mode }

/-- Translation of `setUpdateMode` (lines 192-194). -/
def BitArchiveCreator.setUpdateMode (s : BitArchiveCreator) (update_mode : Bool) : BitArchiveCreator :=
  { s with mUpdateMode := update_mode }

/-- Translation of `setVolumeSize` (lines 196-198). -/
def BitArchiveCreator.setVolumeSize (s : BitArchiveCreator) (size : Nat) : BitArchiveCreator :=
  { s with mVolumeSize := size }

/-- Tagged property values of the engine's property protocol
(`BitPropVariant`). -/
inductive BitPropVariant where
  | boolV : Bool → BitPropVariant
  | natV : Nat → BitPropVariant
  | strV : String → BitPropVariant
deriving DecidableEq

/-- Translation of `setArchiveProperties` (lines 284-327): the ordered
(name, value) list pushed into the parallel `names`/`values` vectors before
the `ISetProperties` call.  The order of the four blocks follows the
source. -/
def setArchiveProperties (s : BitArchiveCreator) : List (String × BitPropVariant) :=
  (if s.mCryptHeaders ∧ s.mFormat.hasFeature .HEADER_ENCRYPTION then
    [("he", .boolV true)]
  else []) ++
  (if s.mFormat.hasFeature .COMPRESSION_LEVEL then
    ("x", .natV s.mCompressionLevel) ::
    (if s.mFormat.hasFeature .MULTIPLE_METHODS ∧ s.mCompressionMethod ≠ s.mFormat.defaultMethod then
      [((if s.mFormat.id = .SevenZip then "0" else "m"), .strV (methodName s.mCompressionMethod))]
    else [])
  else []) ++
  (if s.mFormat.hasFeature .SOLID_ARCHIVE then
    [("s", .boolV s.mSolidMode)]
  else []) ++
  (if s.mDictionarySize ≠ 0 then
    [((if s.mFormat.id = .SevenZip then
        (if s.mCompressionMethod = .Ppmd then "0mem" else "0d")
      else
        (if s.mCompressionMethod = .Ppmd then "mem" else "d")),
      .strV (toString s.mDictionarySize ++ "b"))]
  else [])

/-- HRESULT success code `S_OK`. -/
def S_OK : Int := 0

/-- HRESULT code `E_NOTIMPL` (0x80004001 as a signed 32-bit value). -/
def E_NOTIMPL : Int := -2147467263

/-- HRESULT code `E_FAIL` (0x80004005 as a signed 32-bit value). -/
def E_FAIL : Int := -2147467259

/-- Translation of `compressOut` (bitarchivecreator.cpp lines 247-265): the
engine's `UpdateItems` result code and the callback's accumulated error
message decide which exception, if any, is thrown; `S_OK` is returned. -/
def compressOut (result : Int) (error_message : String) : Except BitException Int :=
  if result = E_NOTIMPL then
    .error ⟨"Unsupported operation!"⟩
  else if result = E_FAIL ∧ error_message = "" then
    .error ⟨"Failed operation (unkwown error)!"⟩
  else if result ≠ S_OK then
    .error ⟨error_message⟩
  else
    .ok result

/-- Outcome of `COutFileStream::Create` on the destination path: success,
failure with `GetLastError() == ERROR_FILE_EXISTS`, or failure with any
other error code. -/
inductive CreateOutcome where
  | success
  | fileExists
  | otherError
deriving DecidableEq

/-- Filesystem environment a commit runs against: how creating the
destination file turns out, and whether creating the `.tmp` file next to it
would succeed. -/
structure FsEnv where
  createOutcome : CreateOutcome
  tmpCreateSucceeds : Bool
deriving DecidableEq

/-- Kind of output stream produced by `initOutFileStream`: a multi-volume
stream, a fresh single file stream, or a `.tmp` stream for an in-place
update of the existing archive. -/
inductive OutStreamKind where
  | multiVolStream (volume_size : Nat) (out_archive : String)
  | fileStream (out_archive : String)
  | updateTmpStream (out_archive : String)
deriving DecidableEq

/-- Translation of `initOutFileStream` (bitarchivecreator.cpp lines
210-241): a positive volume size yields a multi-volume stream outright;
otherwise the destination is created, and on `ERROR_FILE_EXISTS` the
update-mode and multiple-files checks run before the `.tmp` stream is
created and the old archive opened. -/
def initOutFileStream (s : BitArchiveCreator) (out_archive : String)
    (fs : FsEnv) : Except BitException OutStreamKind :=
  if 0 < s.mVolumeSize then
    .ok (.multiVolStream s.mVolumeSize out_archive)
  else
    match fs.createOutcome with
    | .success => .ok (.fileStream out_archive)
    | .otherError =>
        .error ⟨"Cannot create output archive file '" ++ out_archive ++ "'"⟩
    | .fileExists =>
        if ¬ s.mUpdateMode then
          .error ⟨"Cannot update existing archive file '" ++ out_archive ++ "'"⟩
        else if ¬ s.mFormat.hasFeature .MULTIPLE_FILES then
          .error ⟨"Format does not support updating existing archive files"⟩
        else if ¬ fs.tmpCreateSucceeds then
          .error ⟨"Cannot create temp archive file for updating '" ++ out_archive ++ "'"⟩
        else
          .ok (.updateTmpStream out_archive)

/-- Modelled from the spec: the CommitPipeline orchestration (§4.4) lives in
the callers of `initOutFileStream` and `compressOut`, which are not under
src/; per §4.4 the pipeline first acquires the output target via
`initOutFileStream` and only then invokes the engine, whose result code is
interpreted by `compressOut`.  The boolean of the result records whether the
engine's compress/update call was invoked. -/
def commit (s : BitArchiveCreator) (out_archive : String) (fs : FsEnv)
    (engine_result : Int) (engine_message : String) :
    Except BitException OutStreamKind × Bool :=
  match initOutFileStream s out_archive fs with
  | .error e => (.error e, false)
  | .ok target =>
      match compressOut engine_result engine_message with
      | .error e => (.error e, true)
      | .ok _ => (.ok target, true)

/-- Setter calls a client may issue on a `BitArchiveCreator` between
construction and commit. -/
inductive CreatorOp where
  | setPassword (password : String) (crypt_headers : Bool)
  | setPassword1 (password : String)
  | setCompressionLevel (compression_level : Nat)
  | setCompressionMethod (compression_method : BitCompressionMethod)
  | setDictionarySize (dictionary_size : Nat)
  | setSolidMode (solid_mode : Bool)
  | setUpdateMode (update_mode : Bool)
  | setVolumeSize (size : Nat)
deriving DecidableEq

/-- Effect of one setter call on the creator state; for the throwing
setters the state after the call is the first component of the pair (on a
throw the C++ object is left unchanged, which is what the pair encodes). -/
def applyOp (s : BitArchiveCreator) : CreatorOp → BitArchiveCreator
  | .setPassword p c => s.setPassword p c
  | .setPassword1 p => s.setPassword1 p
  | .setCompressionLevel l => s.setCompressionLevel l
  | .setCompressionMethod m => (s.setCompressionMethod m).1
  | .setDictionarySize d => (s.setDictionarySize d).1
  | .setSolidMode b => s.setSolidMode b
  | .setUpdateMode b => s.setUpdateMode b
  | .setVolumeSize n => s.setVolumeSize n

/-- State after a sequence of setter calls. -/
def runOps (s : BitArchiveCreator) : List CreatorOp → BitArchiveCreator
  | [] => s
  | op :: rest => runOps (applyOp s op) rest

/-- Concrete format shaped like the GZip output format: single-method
(no MULTIPLE_METHODS), default method Deflate. -/
def gzipLikeFormat : BitInOutFormat :=
  { id := .GZip
    multipleFiles := false
    multipleMethods := false
    compressionLevelFeature := true
    solidArchive := false
    headerEncryption := false
    defaultMethod := .Deflate }

/-- Concrete format shaped like the SevenZip output format: multi-file,
multi-method, default method Lzma2, supports header encryption. -/
def sevenZipLikeFormat : BitInOutFormat :=
  { id := .SevenZip
    multipleFiles := true
    multipleMethods := true
    compressionLevelFeature := true
    solidArchive := true
    headerEncryption := true
    defaultMethod := .Lzma2 }

/-- Concrete format shaped like the Tar output format: multi-file, no
method choice, default method Copy. -/
def tarLikeFormat : BitInOutFormat :=
  { id := .Tar
    multipleFiles := true
    multipleMethods := false
    compressionLevelFeature := false
    solidArchive := false
    headerEncryption := false
    defaultMethod := .Copy }

/-- Counterexample to claim C3: on a creator whose current method is
Deflate (the state a fresh GZip-format creator starts in),
`setDictionarySize 0` throws, because `isValidDictionarySize` demands the
exact fixed size 32768 for Deflate even for the sentinel 0. -/
theorem setDictionarySize_zero_rejected_for_Deflate :
    ((initialCreator gzipLikeFormat).setDictionarySize 0).2 =
      some ⟨"Invalid dictionary size for the chosen compression method"⟩ := by
  rfl

/-- Claim C3 (amended): `setDictionarySize 0` raises no exception for every
current method except Deflate and Deflate64; for those two the fixed-size
bound rejects the sentinel 0. -/
theorem setDictionarySize_zero_ok_unless_fixed (s : BitArchiveCreator)
    (h1 : s.mCompressionMethod ≠ .Deflate)
    (h2 : s.mCompressionMethod ≠ .Deflate64) :
    (s.setDictionarySize 0).2 = none := by
  cases hm : s.mCompressionMethod <;>
    simp_all [BitArchiveCreator.setDictionarySize, isValidDictionarySize, hm]

/-- Witness for `setDictionarySize_zero_ok_unless_fixed` at a fresh
SevenZip-format creator, whose current method is Lzma2. -/
theorem setDictionarySize_zero_ok_unless_fixed_witness :
    (initialCreator sevenZipLikeFormat).mCompressionMethod ≠ .Deflate ∧
      (initialCreator sevenZipLikeFormat).mCompressionMethod ≠ .Deflate64 ∧
      ((initialCreator sevenZipLikeFormat).setDictionarySize 0).2 = none :=
  ⟨by decide, by decide,
    setDictionarySize_zero_ok_unless_fixed (initialCreator sevenZipLikeFormat)
      (by decide) (by decide)⟩

/-- Claim C4: whenever `setCompressionMethod` or `setDictionarySize` throws,
the creator state after the call is exactly the state before it — no field
is mutated on a rejected setter call. -/
theorem setters_leave_state_unchanged_on_error
    (s t : BitArchiveCreator) (m : BitCompressionMethod) (d : Nat) :
    ((s.setCompressionMethod m).2.isSome → (s.setCompressionMethod m).1 = s) ∧
      ((t.setDictionarySize d).2.isSome → (t.setDictionarySize d).1 = t) := by
  constructor
  · intro h
    by_cases hv : isValidCompressionMethod s.mFormat m = true
    · exfalso
      by_cases hf : s.mFormat.hasFeature .MULTIPLE_METHODS = true <;>
        simp [BitArchiveCreator.setCompressionMethod, hv, hf] at h
    · simp [BitArchiveCreator.setCompressionMethod, hv]
  · intro h
    by_cases hv : isValidDictionarySize t.mCompressionMethod d = true
    · exfalso
      by_cases hm : t.mCompressionMethod ≠ .Copy ∧ t.mCompressionMethod ≠ .Deflate ∧
          t.mCompressionMethod ≠ .Deflate64 <;>
        simp [BitArchiveCreator.setDictionarySize, hv, hm] at h
    · simp [BitArchiveCreator.setDictionarySize, hv]

/-- Witness for `setters_leave_state_unchanged_on_error`: Lzma is invalid
for the Tar-like format and 5 is an invalid Deflate dictionary size, so both
setters throw and both states are unchanged. -/
theorem setters_leave_state_unchanged_on_error_witness :
    ((initialCreator tarLikeFormat).setCompressionMethod .Lzma).2.isSome = true ∧
      ((initialCreator tarLikeFormat).setCompressionMethod .Lzma).1 =
        initialCreator tarLikeFormat ∧
      ((initialCreator gzipLikeFormat).setDictionarySize 5).2.isSome = true ∧
      ((initialCreator gzipLikeFormat).setDictionarySize 5).1 =
        initialCreator gzipLikeFormat :=
  ⟨by decide,
    (setters_leave_state_unchanged_on_error (initialCreator tarLikeFormat)
      (initialCreator gzipLikeFormat) .Lzma 5).1 (by decide),
    by decide,
    (setters_leave_state_unchanged_on_error (initialCreator tarLikeFormat)
      (initialCreator gzipLikeFormat) .Lzma 5).2 (by decide)⟩

/-- Claim C5: on a format without the MULTIPLE_METHODS capability, setting
a method that is valid for the format raises no exception and leaves the
whole state unchanged, so the stored method stays the format's single fixed
(default) method. -/
theorem setCompressionMethod_silent_noop (s : BitArchiveCreator)
    (m : BitCompressionMethod)
    (hf : s.mFormat.hasFeature .MULTIPLE_METHODS = false)
    (hv : isValidCompressionMethod s.mFormat m = true)
    (hd : s.mCompressionMethod = s.mFormat.defaultMethod) :
    s.setCompressionMethod m = (s, none) ∧
      (s.setCompressionMethod m).1.mCompressionMethod = s.mFormat.defaultMethod := by
  have hres : s.setCompressionMethod m = (s, none) := by
    simp [BitArchiveCreator.setCompressionMethod, hv, hf]
  exact ⟨hres, by rw [hres]; exact hd⟩

/-- Witness for `setCompressionMethod_silent_noop`: Deflate is valid for
the GZip-like single-method format, and the write is a no-op. -/
theorem setCompressionMethod_silent_noop_witness :
    gzipLikeFormat.hasFeature .MULTIPLE_METHODS = false ∧
      isValidCompressionMethod gzipLikeFormat .Deflate = true ∧
      (initialCreator gzipLikeFormat).setCompressionMethod .Deflate =
        (initialCreator gzipLikeFormat, none) :=
  ⟨by decide, by decide,
    (setCompressionMethod_silent_noop (initialCreator gzipLikeFormat) .Deflate
      (by decide) (by decide) (by decide)).1⟩

/-- Claim C9: `setCompressionLevel` stores the new level and resets the
stored dictionary size to the default sentinel 0, whatever their previous
values were; no other field changes. -/
theorem setCompressionLevel_resets_dictionary (s : BitArchiveCreator) (l : Nat) :
    s.setCompressionLevel l =
      { s with mCompressionLevel := l, mDictionarySize := 0 } :=
  rfl

/-- Claim C10: when `setCompressionMethod` actually applies the method
(valid method, format with MULTIPLE_METHODS) it also resets the stored
dictionary size to 0; in the silent no-op case (valid method, format
without MULTIPLE_METHODS) the state — the dictionary size included — is
unchanged. -/
theorem setCompressionMethod_applies_resets_dictionary
    (s : BitArchiveCreator) (m : BitCompressionMethod)
    (hv : isValidCompressionMethod s.mFormat m = true) :
    (s.mFormat.hasFeature .MULTIPLE_METHODS = true →
      s.setCompressionMethod m =
        ({ s with mCompressionMethod := m, mDictionarySize := 0 }, none)) ∧
      (s.mFormat.hasFeature .MULTIPLE_METHODS = false →
        s.setCompressionMethod m = (s, none)) := by
  constructor
  · intro hf
    simp [BitArchiveCreator.setCompressionMethod, hv, hf]
  · intro hf
    simp [BitArchiveCreator.setCompressionMethod, hv, hf]

/-- Witness for `setCompressionMethod_applies_resets_dictionary`, both
branches: Ppmd applied on a SevenZip-like creator with a non-zero stored
dictionary size resets it to 0; Deflate on the GZip-like single-method
creator leaves the state alone. -/
theorem setCompressionMethod_applies_resets_dictionary_witness :
    isValidCompressionMethod sevenZipLikeFormat .Ppmd = true ∧
      ({ initialCreator sevenZipLikeFormat with
          mDictionarySize := 4096 }).setCompressionMethod .Ppmd =
        ({ initialCreator sevenZipLikeFormat with
            mCompressionMethod := .Ppmd, mDictionarySize := 0 }, none) ∧
      (initialCreator gzipLikeFormat).setCompressionMethod .Deflate =
        (initialCreator gzipLikeFormat, none) := by
  refine ⟨by decide, ?_, ?_⟩
  · have h := (setCompressionMethod_applies_resets_dictionary
      { initialCreator sevenZipLikeFormat with mDictionarySize := 4096 } .Ppmd
      (by decide)).1 (by decide)
    simpa using h
  · exact (setCompressionMethod_applies_resets_dictionary
      (initialCreator gzipLikeFormat) .Deflate (by decide)).2 (by decide)

/-- Helper: `setCompressionMethod` never touches the stored password or the
`mCryptHeaders` flag, whichever branch runs. -/
theorem setCompressionMethod_keeps_password (s : BitArchiveCreator)
    (m : BitCompressionMethod) :
    (s.setCompressionMethod m).1.mPassword = s.mPassword ∧
      (s.setCompressionMethod m).1.mCryptHeaders = s.mCryptHeaders := by
  unfold BitArchiveCreator.setCompressionMethod
  split_ifs <;> exact ⟨rfl, rfl⟩

/-- Helper: `setDictionarySize` never touches the stored password or the
`mCryptHeaders` flag, whichever branch runs. -/
theorem setDictionarySize_keeps_password (s : BitArchiveCreator) (d : Nat) :
    (s.setDictionarySize d).1.mPassword = s.mPassword ∧
      (s.setDictionarySize d).1.mCryptHeaders = s.mCryptHeaders := by
  unfold BitArchiveCreator.setDictionarySize
  split_ifs <;> exact ⟨rfl, rfl⟩

/-- Helper: the invariant "an empty password forces `mCryptHeaders` to be
false" is preserved by every setter call, hence by every sequence of
calls. -/
theorem cryptHeaders_needs_password_invariant (s : BitArchiveCreator)
    (h : s.mPassword = "" → s.mCryptHeaders = false) (ops : List CreatorOp) :
    (runOps s ops).mPassword = "" → (runOps s ops).mCryptHeaders = false := by
  induction ops generalizing s with
  | nil => exact h
  | cons op rest ih =>
    refine ih (applyOp s op) ?_
    cases op with
    | setPassword p c =>
      intro hp
      simp only [applyOp, BitArchiveCreator.setPassword] at hp ⊢
      subst hp
      rfl
    | setPassword1 p =>
      intro hp
      simp only [applyOp, BitArchiveCreator.setPassword1,
        BitArchiveCreator.setPassword] at hp ⊢
      subst hp
      rfl
    | setCompressionLevel l => exact h
    | setCompressionMethod m =>
      intro hp
      rw [show (applyOp s (.setCompressionMethod m)).mCryptHeaders = s.mCryptHeaders from
        (setCompressionMethod_keeps_password s m).2]
      refine h ?_
      rw [show (applyOp s (.setCompressionMethod m)).mPassword = s.mPassword from
        (setCompressionMethod_keeps_password s m).1] at hp
      exact hp
    | setDictionarySize d =>
      intro hp
      rw [show (applyOp s (.setDictionarySize d)).mCryptHeaders = s.mCryptHeaders from
        (setDictionarySize_keeps_password s d).2]
      refine h ?_
      rw [show (applyOp s (.setDictionarySize d)).mPassword = s.mPassword from
        (setDictionarySize_keeps_password s d).1] at hp
      exact hp
    | setSolidMode b => exact h
    | setUpdateMode b => exact h
    | setVolumeSize n => exact h

/-- Helper: when `mCryptHeaders` is false, the property list built by
`setArchiveProperties` contains no "he" entry, whatever the format's
capabilities are. -/
theorem he_not_in_properties (s : BitArchiveCreator) (h : s.mCryptHeaders = false) :
    "he" ∉ (setArchiveProperties s).map Prod.fst := by
  unfold setArchiveProperties
  simp only [h]
  split_ifs <;> simp_all

/-- Claim C6: after every sequence of setter calls from construction, if the
stored password is empty then `mCryptHeaders` is false (so `mCryptHeaders`
can be true only with a non-empty password), and consequently the built
property bag has no header-encryption entry "he", even when the format
supports header encryption. -/
theorem cryptHeaders_only_with_password (format : BitInOutFormat)
    (ops : List CreatorOp)
    (h : (runOps (initialCreator format) ops).mPassword = "") :
    (runOps (initialCreator format) ops).mCryptHeaders = false ∧
      "he" ∉ (setArchiveProperties (runOps (initialCreator format) ops)).map Prod.fst := by
  have hc := cryptHeaders_needs_password_invariant (initialCreator format)
    (fun _ => rfl) ops h
  exact ⟨hc, he_not_in_properties _ hc⟩

/-- Witness for `cryptHeaders_only_with_password`: requesting
`cryptHeaders = true` with an empty password on a header-encryption-capable
format still resolves to false and omits "he". -/
theorem cryptHeaders_only_with_password_witness :
    (runOps (initialCreator sevenZipLikeFormat)
        [CreatorOp.setPassword "" true]).mPassword = "" ∧
      (runOps (initialCreator sevenZipLikeFormat)
        [CreatorOp.setPassword "" true]).mCryptHeaders = false ∧
      "he" ∉ (setArchiveProperties (runOps (initialCreator sevenZipLikeFormat)
        [CreatorOp.setPassword "" true])).map Prod.fst := by
  have h := cryptHeaders_only_with_password sevenZipLikeFormat
    [CreatorOp.setPassword "" true] (by decide)
  exact ⟨by decide, h.1, h.2⟩

/-- Claim C7: `compressOut` maps the engine's result code as specified:
`E_NOTIMPL` throws the unsupported-operation exception, `E_FAIL` with an
empty callback message throws the generic-failure exception, any other
non-`S_OK` code throws the callback's accumulated message, and `S_OK`
throws nothing and is returned. -/
theorem compressOut_result_mapping (result : Int) (msg : String) :
    (result = E_NOTIMPL →
      compressOut result msg = .error ⟨"Unsupported operation!"⟩) ∧
      (result = E_FAIL → msg = "" →
        compressOut result msg = .error ⟨"Failed operation (unkwown error)!"⟩) ∧
      (result ≠ S_OK → result ≠ E_NOTIMPL → ¬(result = E_FAIL ∧ msg = "") →
        compressOut result msg = .error ⟨msg⟩) ∧
      (result = S_OK → compressOut result msg = .ok result) := by
  refine ⟨?_, ?_, ?_, ?_⟩
  · intro h
    simp [compressOut, h]
  · intro h hm
    subst h
    subst hm
    simp [compressOut, E_NOTIMPL, E_FAIL]
  · intro h1 h2 h3
    simp [compressOut, h1, h2, h3]
  · intro h
    subst h
    simp [compressOut, S_OK, E_NOTIMPL, E_FAIL]

/-- Witness for `compressOut_result_mapping`, exercising all four clauses
at concrete result codes and messages. -/
theorem compressOut_result_mapping_witness :
    compressOut E_NOTIMPL "" = .error ⟨"Unsupported operation!"⟩ ∧
      compressOut E_FAIL "" = .error ⟨"Failed operation (unkwown error)!"⟩ ∧
      compressOut 1 "boom" = .error ⟨"boom"⟩ ∧
      compressOut S_OK "x" = .ok S_OK :=
  ⟨(compressOut_result_mapping E_NOTIMPL "").1 rfl,
    (compressOut_result_mapping E_FAIL "").2.1 rfl rfl,
    (compressOut_result_mapping 1 "boom").2.2.1 (by decide) (by decide) (by decide),
    (compressOut_result_mapping S_OK "x").2.2.2 rfl⟩

/-- Claim C8: a commit with volume size 0 against a destination that
already exists, with update mode off, fails with the "cannot update"
exception and the engine's compress/update call is never invoked. -/
theorem commit_fails_before_engine_without_update_mode
    (s : BitArchiveCreator) (out_archive : String) (fs : FsEnv)
    (engine_result : Int) (engine_message : String)
    (hv : s.mVolumeSize = 0) (hc : fs.createOutcome = .fileExists)
    (hu : s.mUpdateMode = false) :
    commit s out_archive fs engine_result engine_message =
      (.error ⟨"Cannot update existing archive file '" ++ out_archive ++ "'"⟩, false) := by
  simp [commit, initOutFileStream, hv, hc, hu]

/-- Witness for `commit_fails_before_engine_without_update_mode` on a fresh
SevenZip-format creator, an existing destination and a would-be-successful
engine call. -/
theorem commit_fails_before_engine_without_update_mode_witness :
    (initialCreator sevenZipLikeFormat).mVolumeSize = 0 ∧
      (FsEnv.mk .fileExists true).createOutcome = .fileExists ∧
      (initialCreator sevenZipLikeFormat).mUpdateMode = false ∧
      commit (initialCreator sevenZipLikeFormat) "out.7z" (FsEnv.mk .fileExists true)
          S_OK "" =
        (.error ⟨"Cannot update existing archive file '" ++ "out.7z" ++ "'"⟩, false) :=
  ⟨rfl, rfl, rfl,
    commit_fails_before_engine_without_update_mode (initialCreator sevenZipLikeFormat)
      "out.7z" (FsEnv.mk .fileExists true) S_OK "" rfl rfl rfl⟩
